import Mathlib

/-!
# Verification of the stow Ansible module (library/stow.py)

A shallow embedding of the module's logic:

* `conflictParse`     — the pure core of `stow_has_conflicts` (exit code and
  stderr of the dry run to a conflict report), lines 83-111 of the source;
* `purgeRun` / `purge_conflicts` — the purge loop of `purge_conflicts`,
  lines 28-37;
* `stow`              — the per-package orchestration, lines 114-170;
* `main`/`mainRun`    — the outer package loop, lines 194-203.

External interactions (the stow binary invoked through `module.run_command`,
and the filesystem primitives `os.path.islink`, `os.unlink`, `os.remove`) are
modelled by an environment `Env` of response functions, and every run returns
the trace of the effects it performed (`Effect`), so that claims about what
was or was not executed can be stated.

Python string primitives used by the source (`str.split`, `str.strip`,
substring membership `in`, `os.path.join`) are embedded on `List Char` /
`String` with Python's semantics (`pySplit`, `pyStrip`, `hasSub`,
`osPathJoin`).
-/

namespace StowMod

/-- ASCII whitespace stripped by Python's `str.strip()` (the inputs handled
here are ASCII diagnostic text). -/
def isPySpace (c : Char) : Bool :=
  c == ' ' || c == '\t' || c == '\n' || c == '\r' || c == '\x0b' || c == '\x0c'

/-- Python `s.strip()` on a list of characters. -/
def pyStrip (l : List Char) : List Char :=
  ((l.dropWhile isPySpace).reverse.dropWhile isPySpace).reverse

/-- Python `s.split(sep)` for a one-character separator: always returns a
non-empty list of (possibly empty) segments. -/
def pySplit (sep : Char) : List Char → List (List Char)
  | [] => [[]]
  | x :: xs =>
    match pySplit sep xs with
    | [] => [[]]
    | h :: t => if x == sep then [] :: h :: t else (x :: h) :: t

/-- `isPrefixL sub l` : `sub` is a prefix of `l` (Boolean). -/
def isPrefixL : List Char → List Char → Bool
  | [], _ => true
  | _ :: _, [] => false
  | a :: as, b :: bs => a == b && isPrefixL as bs

/-- Python substring membership `sub in hay` (Boolean). -/
def hasSub (sub : List Char) : List Char → Bool
  | [] => isPrefixL sub []
  | c :: rest => isPrefixL sub (c :: rest) || hasSub sub rest

/-- `endsWithL suf l` : `l` ends with `suf` (Boolean). -/
def endsWithL (suf l : List Char) : Bool :=
  isPrefixL suf.reverse l.reverse

/-- Python `os.path.join(a, b)` for POSIX paths (two arguments):
`b` absolute wins; otherwise append, inserting `/` unless `a` is empty or
already ends with `/`. -/
def osPathJoin (a b : String) : String :=
  if isPrefixL "/".data b.data then b
  else if a == "" || endsWithL "/".data a.data then a ++ b
  else a ++ "/" ++ b

/-- The conflict marker substring the source greps stderr for. -/
def markerL : List Char := "* existing target is".data

/-- A stderr line is a conflict marker line iff it contains `markerL`
(source: `if '* existing target is' in sel`). -/
def isMarkerLine (sel : List Char) : Bool := hasSub markerL sel

/-- Python `sel.split(':')[-1]`: the text after the last colon (the whole
line when it has no colon). -/
def lastColonSeg (sel : List Char) : List Char :=
  (pySplit ':' sel).getLastD sel

/-- The conflicting path extracted from one marker line (source lines
101-103): `os.path.join(params['target'], sel.split(':')[-1].strip())`. -/
def extractConflict (target : String) (sel : List Char) : String :=
  osPathJoin target (String.mk (pyStrip (lastColonSeg sel)))

/-- The `for sel in stderr_lines` loop of `stow_has_conflicts` (source lines
99-105): collect the extracted path of every marker line, in order. -/
def collectConflicts (target : String) : List (List Char) → List String
  | [] => []
  | sel :: rest =>
    if isMarkerLine sel then extractConflict target sel :: collectConflicts target rest
    else collectConflicts target rest

/-- A conflict report (the dictionary returned by `stow_has_conflicts`).
The `rc == 2` dictionary of the source has no `files` key; it is modelled
with `files := []`, which is observationally equivalent since the source
only reads `files` when `recoverable` is true. -/
structure Conflict where
  recoverable : Bool
  message : String
  files : List String
deriving DecidableEq, Repr

/-- The pure core of `stow_has_conflicts` (source lines 83-111): exit code
and stderr of the dry run to an optional conflict report. -/
def conflictParse (package target : String) (rc : Int) (stderr : String) :
    Option Conflict :=
  if rc == 0 then none
  else if rc == 2 then
    some { recoverable := false, message := "conflicting directory found", files := [] }
  else
    let stderr_lines := pySplit '\n' stderr.data
    let conflicts := collectConflicts target stderr_lines
    let conff := String.intercalate ", " (conflicts.map (fun f => "\"" ++ f ++ "\""))
    some { recoverable := true,
           message := "unable to stow package \"" ++ package ++ "\" to \"" ++ target
                        ++ "\"; conflicted files: " ++ conff,
           files := conflicts }

/-- A filesystem removal primitive applied to a path: `os.unlink` or
`os.remove`. -/
inductive FsOp where
  | unlink (path : String)
  | remove (path : String)
deriving DecidableEq, Repr

/-- An externally observable effect of a run: an invocation of a command
through `module.run_command`, or a filesystem removal primitive. -/
inductive Effect where
  | runCmd (cmd : String)
  | fsOp (op : FsOp)
deriving DecidableEq, Repr

/-- The environment's responses to the module's external interactions:
`run c` is the `(rc, stderr)` of `module.run_command c` (stdout is discarded
by the source), `isLink p` is `os.path.islink(p)`, and `opResult op` is
`none` when the removal primitive succeeds and `some cause` when it raises
an exception whose `str(err)` is `cause`. -/
structure Env where
  run : String → Int × String
  isLink : String → Bool
  opResult : FsOp → Option String

/-- The purge error message of the source (line 35):
`f'unable to purge file "{file}"; error: {str(err)}'`. -/
def purgeMsg (file err : String) : String :=
  "unable to purge file \"" ++ file ++ "\"; error: " ++ err

/-- The `for file in conflicts` loop of `purge_conflicts` (source lines
28-37): each path dispatches to `unlink` when it is a symbolic link and to
`remove` otherwise; the first exception aborts the loop. Returns the trace
of removal primitives invoked and the optional error message. -/
def purgeRun (env : Env) : List String → List Effect × Option String
  | [] => ([], none)
  | file :: rest =>
    let op := if env.isLink file then FsOp.unlink file else FsOp.remove file
    match env.opResult op with
    | some err => ([Effect.fsOp op], some (purgeMsg file err))
    | none =>
      let r := purgeRun env rest
      (Effect.fsOp op :: r.1, r.2)

/-- `purge_conflicts` as the source returns it: `None` on success, the error
message on the first failure. -/
def purge_conflicts (env : Env) (conflicts : List String) : Option String :=
  (purgeRun env conflicts).2

/-- `stow_has_conflicts` (source lines 39-111): append `--no` to the
command, run it, and parse the exit code and stderr. -/
def stow_has_conflicts (env : Env) (target package cmd : String) :
    List Effect × Option Conflict :=
  let dcmd := cmd ++ " --no"
  let res := env.run dcmd
  ([Effect.runCmd dcmd], conflictParse package target res.1 res.2)

/-- The dictionary returned by `stow`: an error dictionary carries only the
message, a success dictionary carries only the changed flag (the source
dictionaries have no other read key on each branch). -/
inductive StowRet where
  | err (message : String)
  | ok (changed : Bool)
deriving DecidableEq, Repr

/-- The commit failure message of the source (lines 166-167). -/
def commitFailMsg (cmd : String) (rc : Int) (se : String) : String :=
  "execution of command \"" ++ cmd ++ "\" failed with error code " ++ toString rc
    ++ "; output: \"" ++ se ++ "\""

/-- The commit step of `stow` (source lines 164-170): run the base command
for real; non-zero exit code is an error, otherwise changed iff stderr is
non-empty. -/
def commitRun (env : Env) (cmd : String) : List Effect × StowRet :=
  let res := env.run cmd
  ([Effect.runCmd cmd],
    if res.1 != 0 then StowRet.err (commitFailMsg cmd res.1 res.2)
    else StowRet.ok (res.2 != ""))

/-- The state-to-flag mapping of `stow` (source lines 134-140). -/
def modeFlag (state : String) : String :=
  if state == "present" || state == "supress" then "--stow"
  else if state == "absent" then "--delete"
  else if state == "latest" then "--restow"
  else ""

/-- The command built by `stow` (source lines 142-144). -/
def buildCmd (stowPath target dir package state : String) : String :=
  stowPath ++ " " ++ modeFlag state ++ " " ++ package ++ " --target=" ++ target
    ++ " --dir=" ++ dir ++ " --verbose"

/-- `stow` (source lines 114-170): dry-run probe, conflict handling, optional
purge, commit. Returns the trace of effects and the result dictionary. -/
def stow (env : Env) (stowPath target dir package state : String) :
    List Effect × StowRet :=
  let cmd := buildCmd stowPath target dir package state
  let dry := stow_has_conflicts env target package cmd
  match dry.2 with
  | none =>
    let c := commitRun env cmd
    (dry.1 ++ c.1, c.2)
  | some conflict =>
    if state != "supress" || !conflict.recoverable then
      (dry.1, StowRet.err conflict.message)
    else
      let p := purgeRun env conflict.files
      match p.2 with
      | some m => (dry.1 ++ p.1, StowRet.err m)
      | none =>
        let c := commitRun env cmd
        (dry.1 ++ p.1 ++ c.1, c.2)

/-- The outcome surfaced by `main`: `module.fail_json(msg)` on the first
failing package, else `module.exit_json(changed)`. -/
inductive MainResult where
  | failed (msg : String)
  | okChanged (changed : Bool)
deriving DecidableEq, Repr

/-- The `for package in list(params['package'])` loop of `main` (source
lines 194-201) with the running `has_changed` accumulator. Returns the list
of packages actually attempted (passed to `stow`) and the outcome. -/
def mainRun (env : Env) (stowPath target dir state : String) :
    List String → Bool → List String × MainResult
  | [], acc => ([], MainResult.okChanged acc)
  | pkg :: rest, acc =>
    match (stow env stowPath target dir pkg state).2 with
    | StowRet.err m => ([pkg], MainResult.failed m)
    | StowRet.ok c =>
      let r := mainRun env stowPath target dir state rest (acc || c)
      (pkg :: r.1, r.2)

/-- `main` (source lines 173-203): process the package list with
`has_changed` starting false. -/
def main (env : Env) (stowPath target dir state : String)
    (packages : List String) : List String × MainResult :=
  mainRun env stowPath target dir state packages false

/-- The commit step (source lines 164-170) over a stateful oracle: `run`
takes the world state and the command and returns the new world state, the
exit code and the stderr text. Used to state idempotence across two
successive commits. -/
def commitSt {σ : Type} (run : σ → String → σ × Int × String) (s : σ)
    (cmd : String) : σ × StowRet :=
  let r := run s cmd
  (r.1,
    if r.2.1 != 0 then StowRet.err (commitFailMsg cmd r.2.1 r.2.2)
    else StowRet.ok (r.2.2 != ""))

/-! ## Concrete environments and inputs used to instantiate the theorems -/

/-- A dry-run stderr with two real-format conflict marker lines (the
oracle's diagnostic lines carry a colon before the relative path). -/
def exStderr : String :=
  "* existing target is neither a link nor a directory: .bashrc\n* existing target is neither a link nor a directory: .vimrc"

/-- An environment whose oracle reports exit code 1 with empty stderr on
every invocation. -/
def envReject : Env :=
  { run := fun _ => (1, ""),
    isLink := fun _ => false,
    opResult := fun _ => none }

/-- An environment for exercising the purge loop: `/t/link` is a symbolic
link, removing `/t/bad` raises `Permission denied`, everything else
succeeds. -/
def envPurge : Env :=
  { run := fun _ => (0, ""),
    isLink := fun p => p == "/t/link",
    opResult := fun op =>
      match op with
      | FsOp.remove "/t/bad" => some "Permission denied"
      | _ => none }

/-- An environment whose oracle succeeds on every invocation: dry runs are
silent, real runs emit diagnostic text on stderr. -/
def envCommit : Env :=
  { run := fun c => if c == "/s --stow pkg --target=/t --dir=/d --verbose --no"
      then (0, "") else (0, "LINK: x"),
    isLink := fun _ => false,
    opResult := fun _ => none }

/-- An environment for the package loop: any command mentioning `pkgB`
fails its dry run with exit code 1, every other command succeeds with
diagnostic output. -/
def envLoop : Env :=
  { run := fun c => if hasSub "pkgB".data c.data then (1, "") else (0, "done"),
    isLink := fun _ => false,
    opResult := fun _ => none }

/-- A stateful oracle over a Boolean world (`true` = package already
stowed): every run stows the package; a run from the already-stowed world
is a no-op and emits empty stderr. -/
def runIdem : Bool → String → Bool × Int × String :=
  fun s _ => (true, 0, if s then "" else "LINK: done")

/-! ## Helper lemmas -/

theorem pySplit_ne_nil (sep : Char) (l : List Char) : pySplit sep l ≠ [] := by
  cases l with
  | nil => simp [pySplit]
  | cons x xs =>
    simp only [pySplit]
    cases pySplit sep xs with
    | nil => simp
    | cons h t =>
      by_cases hx : x == sep <;> simp [hx]

theorem pySplit_of_not_mem (sep : Char) (l : List Char) (h : sep ∉ l) :
    pySplit sep l = [l] := by
  induction l with
  | nil => rfl
  | cons x xs ih =>
    have hx : ¬(x == sep) = true := by
      simp only [beq_iff_eq]
      intro hxe; exact h (hxe ▸ List.mem_cons_self x xs)
    have hxs : sep ∉ xs := fun hm => h (List.mem_cons_of_mem _ hm)
    simp only [pySplit, ih hxs, hx]
    simp

theorem pySplit_mem_shape (sep : Char) (l : List Char) (h : sep ∈ l) :
    ∃ h1 t, pySplit sep l = h1 :: t ∧ t ≠ [] := by
  induction l with
  | nil => exact absurd h (List.not_mem_nil sep)
  | cons x xs ih =>
    by_cases hx : (x == sep) = true
    · obtain ⟨h1, t, he⟩ := List.exists_cons_of_ne_nil (pySplit_ne_nil sep xs)
      exact ⟨[], h1 :: t, by simp [pySplit, he, hx], by simp⟩
    · have hsx : sep ∈ xs := by
        rcases List.mem_cons.mp h with h1 | h2
        · exact absurd (by simp [h1]) hx
        · exact h2
      obtain ⟨h1, t, he, ht⟩ := ih hsx
      exact ⟨x :: h1, t, by simp [pySplit, he, hx], ht⟩

theorem getLastD_of_ne_nil {α : Type} (l : List α) (h : l ≠ []) (a b : α) :
    l.getLastD a = l.getLastD b := by
  cases l with
  | nil => exact absurd rfl h
  | cons x xs => rw [List.getLastD_cons, List.getLastD_cons]

theorem pySplit_cons (sep x : Char) (xs h1 : List Char) (t : List (List Char))
    (he : pySplit sep xs = h1 :: t) :
    pySplit sep (x :: xs) = if x == sep then [] :: h1 :: t else (x :: h1) :: t := by
  simp only [pySplit, he]

theorem pySplit_getLastD_append (sep : Char) (a b d : List Char) :
    (pySplit sep (a ++ sep :: b)).getLastD d = (pySplit sep b).getLastD d := by
  induction a with
  | nil =>
    obtain ⟨h1, t, he⟩ := List.exists_cons_of_ne_nil (pySplit_ne_nil sep b)
    rw [List.nil_append, pySplit_cons sep sep b h1 t he, if_pos (beq_self_eq_true sep),
      he, List.getLastD_cons, List.getLastD_cons, List.getLastD_cons]
  | cons x a' ih =>
    obtain ⟨h1, t, he, ht⟩ := pySplit_mem_shape sep (a' ++ sep :: b)
      (List.mem_append_right _ (List.mem_cons_self _ _))
    have ih' := ih
    rw [he, List.getLastD_cons] at ih'
    by_cases hx : (x == sep) = true
    · rw [List.cons_append, pySplit_cons sep x _ h1 t he, if_pos hx,
        List.getLastD_cons, List.getLastD_cons]
      exact ih'
    · rw [List.cons_append, pySplit_cons sep x _ h1 t he, if_neg hx,
        List.getLastD_cons, getLastD_of_ne_nil t ht (x :: h1) h1]
      exact ih'

theorem lastColonSeg_of_no_colon (sel : List Char) (h : ':' ∉ sel) :
    lastColonSeg sel = sel := by
  simp [lastColonSeg, pySplit_of_not_mem ':' sel h]

theorem lastColonSeg_after_last (a b : List Char) (h : ':' ∉ b) :
    lastColonSeg (a ++ ':' :: b) = b := by
  unfold lastColonSeg
  rw [pySplit_getLastD_append ':' a b _, pySplit_of_not_mem ':' b h]
  rfl

theorem collectConflicts_eq_filter_map (target : String) (lines : List (List Char)) :
    collectConflicts target lines
      = (lines.filter isMarkerLine).map (extractConflict target) := by
  induction lines with
  | nil => rfl
  | cons sel rest ih =>
    by_cases hs : isMarkerLine sel = true <;>
      simp [collectConflicts, List.filter_cons, hs, ih]

theorem purgeRun_all_ok (env : Env) :
    ∀ files : List String,
      (∀ f ∈ files,
        env.opResult (if env.isLink f then FsOp.unlink f else FsOp.remove f) = none) →
      purgeRun env files
        = (files.map
            (fun f => Effect.fsOp (if env.isLink f then FsOp.unlink f else FsOp.remove f)),
           none) := by
  intro files
  induction files with
  | nil => intro _; rfl
  | cons f rest ih =>
    intro hall
    have hf := hall f (List.mem_cons_self f rest)
    have hrest := ih (fun g hg => hall g (List.mem_cons_of_mem _ hg))
    simp [purgeRun, hf, hrest]

theorem purgeRun_first_err (env : Env) :
    ∀ (pre : List String) (f : String) (post : List String) (err : String),
      (∀ g ∈ pre,
        env.opResult (if env.isLink g then FsOp.unlink g else FsOp.remove g) = none) →
      env.opResult (if env.isLink f then FsOp.unlink f else FsOp.remove f) = some err →
      purgeRun env (pre ++ f :: post)
        = ((pre ++ [f]).map
            (fun g => Effect.fsOp (if env.isLink g then FsOp.unlink g else FsOp.remove g)),
           some (purgeMsg f err)) := by
  intro pre
  induction pre with
  | nil =>
    intro f post err _ hf
    simp [purgeRun, hf]
  | cons g pre' ih =>
    intro f post err hpre hf
    have hg := hpre g (List.mem_cons_self g pre')
    have hrest := ih f post err (fun g' hg' => hpre g' (List.mem_cons_of_mem _ hg')) hf
    simp [purgeRun, hg, hrest]

theorem mainRun_all_ok (env : Env) (stowPath target dir state : String)
    (ch : String → Bool) :
    ∀ (pkgs : List String) (acc : Bool),
      (∀ pkg ∈ pkgs, (stow env stowPath target dir pkg state).2 = StowRet.ok (ch pkg)) →
      mainRun env stowPath target dir state pkgs acc
        = (pkgs, MainResult.okChanged (acc || pkgs.any ch)) := by
  intro pkgs
  induction pkgs with
  | nil => intro acc _; simp [mainRun]
  | cons pkg rest ih =>
    intro acc hall
    have hp := hall pkg (List.mem_cons_self pkg rest)
    have hrest := ih (acc || ch pkg) (fun g hg => hall g (List.mem_cons_of_mem _ hg))
    simp [mainRun, hp, hrest, Bool.or_assoc]

theorem mainRun_first_err (env : Env) (stowPath target dir state : String) :
    ∀ (pre : List String) (b : String) (post : List String) (msg : String) (acc : Bool),
      (∀ pkg ∈ pre, ∃ c, (stow env stowPath target dir pkg state).2 = StowRet.ok c) →
      (stow env stowPath target dir b state).2 = StowRet.err msg →
      mainRun env stowPath target dir state (pre ++ b :: post) acc
        = (pre ++ [b], MainResult.failed msg) := by
  intro pre
  induction pre with
  | nil =>
    intro b post msg acc _ hb
    simp [mainRun, hb]
  | cons pkg pre' ih =>
    intro b post msg acc hpre hb
    obtain ⟨c, hc⟩ := hpre pkg (List.mem_cons_self pkg pre')
    have hrest := ih b post msg (acc || c) (fun g hg => hpre g (List.mem_cons_of_mem _ hg)) hb
    simp [mainRun, hc, hrest]

/-! ## Claim theorems -/

/-- C1: for every dry-run result fed to the conflict parser: exit code 0
yields no conflict; exit code 2 yields an unrecoverable conflict with
message "conflicting directory found" and empty files; every other
non-zero exit code yields a conflict whose files list has exactly one
entry per stderr line containing "* existing target is", in line order. -/
theorem parser_exit_code_cases (package target : String) (rc : Int) (stderr : String) :
    (rc = 0 → conflictParse package target rc stderr = none) ∧
    (rc = 2 → conflictParse package target rc stderr
        = some { recoverable := false, message := "conflicting directory found",
                 files := [] }) ∧
    (rc ≠ 0 → rc ≠ 2 → ∃ c, conflictParse package target rc stderr = some c ∧
        c.files = ((pySplit '\n' stderr.data).filter isMarkerLine).map
            (extractConflict target) ∧
        c.files.length = ((pySplit '\n' stderr.data).filter isMarkerLine).length) := by
  refine ⟨?_, ?_, ?_⟩
  · intro h; simp [conflictParse, h]
  · intro h; simp [conflictParse, h]
  · intro h0 h2
    have hc : conflictParse package target rc stderr
        = some { recoverable := true,
                 message := "unable to stow package \"" ++ package ++ "\" to \"" ++ target
                   ++ "\"; conflicted files: "
                   ++ String.intercalate ", "
                       ((collectConflicts target (pySplit '\n' stderr.data)).map
                         (fun f => "\"" ++ f ++ "\"")),
                 files := collectConflicts target (pySplit '\n' stderr.data) } := by
      unfold conflictParse
      rw [if_neg (by simp [h0]), if_neg (by simp [h2])]
    refine ⟨_, hc, ?_, ?_⟩
    · exact collectConflicts_eq_filter_map target _
    · show (collectConflicts target (pySplit '\n' stderr.data)).length = _
      rw [collectConflicts_eq_filter_map target _, List.length_map]

/-- C1 witness: the three exit-code cases at concrete inputs. -/
theorem parser_exit_code_cases_witness :
    conflictParse "p" "/t" 0 "x" = none ∧
    conflictParse "p" "/t" 2 "x"
      = some { recoverable := false, message := "conflicting directory found",
               files := [] } ∧
    (∃ c, conflictParse "p" "/t" 1 "* existing target is: f" = some c ∧
        c.files = ((pySplit '\n' ("* existing target is: f" : String).data).filter
            isMarkerLine).map (extractConflict "/t") ∧
        c.files.length = ((pySplit '\n' ("* existing target is: f" : String).data).filter
            isMarkerLine).length) :=
  ⟨(parser_exit_code_cases "p" "/t" 0 "x").1 rfl,
   (parser_exit_code_cases "p" "/t" 2 "x").2.1 rfl,
   (parser_exit_code_cases "p" "/t" 1 "* existing target is: f").2.2
     (by decide) (by decide)⟩

/-- C2 counterexample: the claim's example is false on the code. With the
two stderr lines exactly "* existing target is .bashrc" and "* existing
target is .vimrc" (no colon in the line), `split(':')[-1]` is the whole
line, so the parser joins the target with the whole marker line, not with
".bashrc"/".vimrc". -/
theorem parser_colonless_example_cex :
    conflictParse "pkg" "/home/u" 1
        "* existing target is .bashrc\n* existing target is .vimrc"
      = some { recoverable := true,
               message := "unable to stow package \"pkg\" to \"/home/u\"; conflicted files: \"/home/u/* existing target is .bashrc\", \"/home/u/* existing target is .vimrc\"",
               files := ["/home/u/* existing target is .bashrc",
                         "/home/u/* existing target is .vimrc"] } ∧
    (["/home/u/* existing target is .bashrc",
      "/home/u/* existing target is .vimrc"] : List String)
      ≠ ["/home/u/.bashrc", "/home/u/.vimrc"] :=
  ⟨rfl, by decide⟩

/-- C2 (amended): for every non-zero exit code other than 2, the parser
returns a recoverable conflict whose paths are the target directory joined
with the whitespace-trimmed trailing colon-delimited segment of each marker
line (order and duplicates preserved), and whose message is exactly
`unable to stow package "<package>" to "<targetDir>"; conflicted files:
"<f1>", "<f2>", ...`; the two-line example holds when the marker lines
carry a colon before the relative path, as the oracle's real diagnostics
do. -/
theorem parser_paths_and_message (package target : String) (rc : Int) (stderr : String)
    (h0 : rc ≠ 0) (h2 : rc ≠ 2) :
    ∃ c, conflictParse package target rc stderr = some c ∧
      c.recoverable = true ∧
      c.files = ((pySplit '\n' stderr.data).filter isMarkerLine).map
          (fun sel => osPathJoin target (String.mk (pyStrip (lastColonSeg sel)))) ∧
      c.message = "unable to stow package \"" ++ package ++ "\" to \"" ++ target
          ++ "\"; conflicted files: "
          ++ String.intercalate ", " (c.files.map (fun f => "\"" ++ f ++ "\"")) := by
  have hc : conflictParse package target rc stderr
      = some { recoverable := true,
               message := "unable to stow package \"" ++ package ++ "\" to \"" ++ target
                 ++ "\"; conflicted files: "
                 ++ String.intercalate ", "
                     ((collectConflicts target (pySplit '\n' stderr.data)).map
                       (fun f => "\"" ++ f ++ "\"")),
               files := collectConflicts target (pySplit '\n' stderr.data) } := by
    unfold conflictParse
    rw [if_neg (by simp [h0]), if_neg (by simp [h2])]
  refine ⟨_, hc, rfl, ?_, rfl⟩
  exact collectConflicts_eq_filter_map target _

/-- C2 witness (the amended example): with target dir `/home/u` and two
real-format marker lines naming `.bashrc` and `.vimrc`, the files are
`/home/u/.bashrc` and `/home/u/.vimrc`, recoverable, with both quoted paths
comma-joined in the message. -/
theorem parser_paths_and_message_witness :
    (∃ c, conflictParse "pkg" "/home/u" 1 exStderr = some c ∧
      c.recoverable = true ∧
      c.files = ((pySplit '\n' exStderr.data).filter isMarkerLine).map
          (fun sel => osPathJoin "/home/u" (String.mk (pyStrip (lastColonSeg sel)))) ∧
      c.message = "unable to stow package \"" ++ "pkg" ++ "\" to \"" ++ "/home/u"
          ++ "\"; conflicted files: "
          ++ String.intercalate ", " (c.files.map (fun f => "\"" ++ f ++ "\""))) ∧
    conflictParse "pkg" "/home/u" 1 exStderr
      = some { recoverable := true,
               message := "unable to stow package \"pkg\" to \"/home/u\"; conflicted files: \"/home/u/.bashrc\", \"/home/u/.vimrc\"",
               files := ["/home/u/.bashrc", "/home/u/.vimrc"] } :=
  ⟨parser_paths_and_message "pkg" "/home/u" 1 exStderr (by decide) (by decide), rfl⟩

/-- C3: for every conflict report the parser produces, recoverable is true
iff files is non-empty, with exactly one exception: a non-zero, non-2 exit
code whose stderr has no marker line yields recoverable true with empty
files. -/
theorem recoverable_iff_files_nonempty (package target : String) (rc : Int)
    (stderr : String) (c : Conflict)
    (h : conflictParse package target rc stderr = some c) :
    ((rc = 2 ∨ ∃ sel ∈ pySplit '\n' stderr.data, isMarkerLine sel = true) →
      (c.recoverable = true ↔ c.files ≠ [])) ∧
    (rc ≠ 2 → (∀ sel ∈ pySplit '\n' stderr.data, isMarkerLine sel = false) →
      c.recoverable = true ∧ c.files = []) := by
  by_cases h0 : rc = 0
  · simp [conflictParse, h0] at h
  by_cases h2 : rc = 2
  · unfold conflictParse at h
    rw [if_neg (by simp [h0]), if_pos (by simp [h2]), Option.some.injEq] at h
    subst h
    refine ⟨fun _ => by simp, fun hne _ => absurd h2 hne⟩
  · unfold conflictParse at h
    rw [if_neg (by simp [h0]), if_neg (by simp [h2]), Option.some.injEq] at h
    subst h
    constructor
    · rintro (hrc | ⟨sel, hmem, hmark⟩)
      · exact absurd hrc h2
      · simp only [true_iff]
        rw [collectConflicts_eq_filter_map]
        intro hnil
        rw [List.map_eq_nil_iff, List.filter_eq_nil_iff] at hnil
        exact hnil sel hmem hmark
    · intro _ hall
      refine ⟨rfl, ?_⟩
      rw [collectConflicts_eq_filter_map, List.map_eq_nil_iff, List.filter_eq_nil_iff]
      intro sel hmem
      simp [hall sel hmem]

/-- C3 witness: the exceptional case at a concrete input — exit code 1 with
stderr "oops" (no marker line) gives a recoverable report with empty
files. -/
theorem recoverable_iff_files_nonempty_witness :
    ∃ c, conflictParse "p" "/t" 1 "oops" = some c ∧
      c.recoverable = true ∧ c.files = [] :=
  ⟨{ recoverable := true,
     message := "unable to stow package \"p\" to \"/t\"; conflicted files: ",
     files := [] },
   rfl,
   (recoverable_iff_files_nonempty "p" "/t" 1 "oops" _ rfl).2 (by decide) (by decide)⟩

/-- C10: the path extracted from a marker line is the target directory
joined with the whitespace-trimmed text after the last colon of the line,
or with the whole trimmed line when it has no colon; a relative path that
itself contains a colon is therefore truncated to its final colon-separated
segment. -/
theorem marker_line_extraction (target : String) :
    (∀ a b : List Char, ':' ∉ b →
      extractConflict target (a ++ ':' :: b)
        = osPathJoin target (String.mk (pyStrip b))) ∧
    (∀ sel : List Char, ':' ∉ sel →
      extractConflict target sel = osPathJoin target (String.mk (pyStrip sel))) := by
  constructor
  · intro a b hb
    unfold extractConflict
    rw [lastColonSeg_after_last a b hb]
  · intro sel hs
    unfold extractConflict
    rw [lastColonSeg_of_no_colon sel hs]

/-- C10 witness: a marker line naming the relative path "a:b" is truncated
to its final segment "b"; a colonless line is used whole. -/
theorem marker_line_extraction_witness :
    extractConflict "/t" ("* existing target is a".data ++ ':' :: "b".data)
      = osPathJoin "/t" (String.mk (pyStrip "b".data)) ∧
    extractConflict "/t" "* existing target is f".data
      = osPathJoin "/t" (String.mk (pyStrip "* existing target is f".data)) :=
  ⟨(marker_line_extraction "/t").1 _ _ (by decide),
   (marker_line_extraction "/t").2 _ (by decide)⟩

/-- C4: when the dry run reports a conflict, `stow` fails with the report's
message and performs no purge and no commit unless the state is supress and
the report recoverable; in that case it purges the report's files, fails
with the purge message on purge failure, and otherwise proceeds to the
commit, whose outcome alone is the result. -/
theorem conflict_handling_policy (env : Env) (stowPath target dir package state : String)
    (report : Conflict)
    (hdry : (stow_has_conflicts env target package
        (buildCmd stowPath target dir package state)).2 = some report) :
    ((state ≠ "supress" ∨ report.recoverable = false) →
      stow env stowPath target dir package state
        = ([Effect.runCmd (buildCmd stowPath target dir package state ++ " --no")],
           StowRet.err report.message)) ∧
    (state = "supress" → report.recoverable = true →
      (∀ m, purge_conflicts env report.files = some m →
        stow env stowPath target dir package state
          = ([Effect.runCmd (buildCmd stowPath target dir package state ++ " --no")]
              ++ (purgeRun env report.files).1, StowRet.err m)) ∧
      (purge_conflicts env report.files = none →
        stow env stowPath target dir package state
          = ([Effect.runCmd (buildCmd stowPath target dir package state ++ " --no")]
              ++ (purgeRun env report.files).1
              ++ [Effect.runCmd (buildCmd stowPath target dir package state)],
             (commitRun env (buildCmd stowPath target dir package state)).2))) := by
  have hdry' : conflictParse package target
      (env.run (buildCmd stowPath target dir package state ++ " --no")).1
      (env.run (buildCmd stowPath target dir package state ++ " --no")).2
      = some report := hdry
  constructor
  · intro hcase
    have hcond : (state != "supress" || !report.recoverable) = true := by
      rcases hcase with h | h
      · simp [bne_iff_ne, h]
      · simp [h]
    simp [stow, stow_has_conflicts, hdry', hcond, commitRun]
  · intro hs hr
    subst hs
    have hcond : (("supress" : String) != "supress" || !report.recoverable) = false := by
      simp [hr]
    constructor
    · intro m hm
      have hm' : (purgeRun env report.files).2 = some m := hm
      simp [stow, stow_has_conflicts, hdry', hcond, hr, hm']
    · intro hok
      have hok' : (purgeRun env report.files).2 = none := hok
      simp [stow, stow_has_conflicts, hdry', hcond, hr, hok', commitRun]

/-- C4 witness: a rejecting oracle and state present — the result is the
report's message and the only effect is the dry-run probe. -/
theorem conflict_handling_policy_witness :
    stow envReject "/s" "/t" "/d" "pkg" "present"
      = ([Effect.runCmd "/s --stow pkg --target=/t --dir=/d --verbose --no"],
         StowRet.err "unable to stow package \"pkg\" to \"/t\"; conflicted files: ") :=
  (conflict_handling_policy envReject "/s" "/t" "/d" "pkg" "present"
      { recoverable := true,
        message := "unable to stow package \"pkg\" to \"/t\"; conflicted files: ",
        files := [] }
      rfl).1 (Or.inl (by decide))

/-- C5: the purge loop processes the files in order, unlinking symbolic
links and removing every other path; the first removal error stops the
loop, leaves all remaining entries untouched, and yields the message
`unable to purge file "<path>"; error: <cause>`; if every removal succeeds
it returns none. -/
theorem purge_in_order_fail_fast (env : Env) :
    (∀ files : List String,
      (∀ f ∈ files,
        env.opResult (if env.isLink f then FsOp.unlink f else FsOp.remove f) = none) →
      purgeRun env files
        = (files.map (fun f => Effect.fsOp
            (if env.isLink f then FsOp.unlink f else FsOp.remove f)), none) ∧
      purge_conflicts env files = none) ∧
    (∀ (pre : List String) (f : String) (post : List String) (err : String),
      (∀ g ∈ pre,
        env.opResult (if env.isLink g then FsOp.unlink g else FsOp.remove g) = none) →
      env.opResult (if env.isLink f then FsOp.unlink f else FsOp.remove f) = some err →
      purgeRun env (pre ++ f :: post)
        = ((pre ++ [f]).map (fun g => Effect.fsOp
            (if env.isLink g then FsOp.unlink g else FsOp.remove g)),
           some ("unable to purge file \"" ++ f ++ "\"; error: " ++ err)) ∧
      purge_conflicts env (pre ++ f :: post)
        = some ("unable to purge file \"" ++ f ++ "\"; error: " ++ err)) := by
  constructor
  · intro files hall
    have h1 := purgeRun_all_ok env files hall
    exact ⟨h1, by simp [purge_conflicts, h1]⟩
  · intro pre f post err hpre hf
    have h1 := purgeRun_first_err env pre f post err hpre hf
    exact ⟨h1, by simp [purge_conflicts, h1, purgeMsg]⟩

/-- C5 witness: purging a symlink, a file whose removal raises
`Permission denied`, and a further file: the symlink is unlinked, the bad
file is removed and fails, the further file is never touched. -/
theorem purge_in_order_fail_fast_witness :
    purgeRun envPurge (["/t/link"] ++ "/t/bad" :: ["/t/after"])
      = (((["/t/link"] ++ ["/t/bad"]) : List String).map (fun g => Effect.fsOp
          (if envPurge.isLink g then FsOp.unlink g else FsOp.remove g)),
         some ("unable to purge file \"" ++ "/t/bad" ++ "\"; error: " ++ "Permission denied")) ∧
    purge_conflicts envPurge (["/t/link"] ++ "/t/bad" :: ["/t/after"])
      = some ("unable to purge file \"" ++ "/t/bad" ++ "\"; error: " ++ "Permission denied") :=
  (purge_in_order_fail_fast envPurge).2 ["/t/link"] "/t/bad" ["/t/after"]
    "Permission denied" (by decide) (by decide)

/-- C6: in the commit step (clean dry run), a non-zero exit code of the
real command yields the error message `execution of command "<cmd>" failed
with error code <rc>; output: "<stderr>"`; a zero exit code yields no error
with changed true iff the command's stderr is non-empty. -/
theorem commit_outcome (env : Env) (stowPath target dir package state : String)
    (hclean : (stow_has_conflicts env target package
        (buildCmd stowPath target dir package state)).2 = none) :
    ((env.run (buildCmd stowPath target dir package state)).1 ≠ 0 →
      (stow env stowPath target dir package state).2
        = StowRet.err ("execution of command \"" ++ buildCmd stowPath target dir package state
            ++ "\" failed with error code "
            ++ toString (env.run (buildCmd stowPath target dir package state)).1
            ++ "; output: \""
            ++ (env.run (buildCmd stowPath target dir package state)).2 ++ "\"")) ∧
    ((env.run (buildCmd stowPath target dir package state)).1 = 0 →
      ((stow env stowPath target dir package state).2 = StowRet.ok true
          ↔ (env.run (buildCmd stowPath target dir package state)).2 ≠ "") ∧
      ((stow env stowPath target dir package state).2 = StowRet.ok false
          ↔ (env.run (buildCmd stowPath target dir package state)).2 = "")) := by
  have hclean' : conflictParse package target
      (env.run (buildCmd stowPath target dir package state ++ " --no")).1
      (env.run (buildCmd stowPath target dir package state ++ " --no")).2
      = none := hclean
  constructor
  · intro hrc
    simp [stow, stow_has_conflicts, hclean', commitRun, commitFailMsg, hrc]
  · intro h0
    simp [stow, stow_has_conflicts, hclean', commitRun, h0, bne_iff_ne]

/-- C6 witness: a clean dry run and a successful verbose commit emitting
"LINK: x" — the outcome is no error, changed true. -/
theorem commit_outcome_witness :
    ((stow envCommit "/s" "/t" "/d" "pkg" "present").2 = StowRet.ok true
        ↔ ("LINK: x" : String) ≠ "") ∧
    ((stow envCommit "/s" "/t" "/d" "pkg" "present").2 = StowRet.ok false
        ↔ ("LINK: x" : String) = "") :=
  (commit_outcome envCommit "/s" "/t" "/d" "pkg" "present" rfl).2 rfl

/-- C7: the outer loop processes the package list in order, stops at the
first package whose result is an error with that single message (never
attempting any later package), and otherwise reports the OR of every
package's changed flag. -/
theorem package_loop_fail_fast_aggregate (env : Env) (stowPath target dir state : String) :
    (∀ (ch : String → Bool) (pkgs : List String),
      (∀ pkg ∈ pkgs, (stow env stowPath target dir pkg state).2 = StowRet.ok (ch pkg)) →
      main env stowPath target dir state pkgs
        = (pkgs, MainResult.okChanged (pkgs.any ch))) ∧
    (∀ (pre : List String) (b : String) (post : List String) (msg : String),
      (∀ pkg ∈ pre, ∃ c, (stow env stowPath target dir pkg state).2 = StowRet.ok c) →
      (stow env stowPath target dir b state).2 = StowRet.err msg →
      main env stowPath target dir state (pre ++ b :: post)
        = (pre ++ [b], MainResult.failed msg)) := by
  constructor
  · intro ch pkgs hall
    have h := mainRun_all_ok env stowPath target dir state ch pkgs false hall
    simpa [main, Bool.false_or] using h
  · intro pre b post msg hpre hb
    have h := mainRun_first_err env stowPath target dir state pre b post msg false hpre hb
    simpa [main] using h

/-- C7 witness: packages [pkgA, pkgB, pkgC] where pkgB fails its dry run —
the loop attempts pkgA then pkgB only and surfaces pkgB's message; and a
loop of the single succeeding package pkgA reports its changed flag. -/
theorem package_loop_fail_fast_aggregate_witness :
    main envLoop "/s" "/t" "/d" "present" (["pkgA"] ++ "pkgB" :: ["pkgC"])
      = (["pkgA"] ++ ["pkgB"],
         MainResult.failed
           "unable to stow package \"pkgB\" to \"/t\"; conflicted files: ") ∧
    main envLoop "/s" "/t" "/d" "present" ["pkgA"]
      = (["pkgA"], MainResult.okChanged ((["pkgA"] : List String).any (fun _ => true))) :=
  ⟨(package_loop_fail_fast_aggregate envLoop "/s" "/t" "/d" "present").2
      ["pkgA"] "pkgB" ["pkgC"] _ (by intro pkg hpkg; exact ⟨true, by rw [List.mem_singleton.mp hpkg]; rfl⟩) rfl,
   (package_loop_fail_fast_aggregate envLoop "/s" "/t" "/d" "present").1
      (fun _ => true) ["pkgA"] (by intro pkg hpkg; rw [List.mem_singleton.mp hpkg]; rfl)⟩

/-- C8: the oracle command is `<stow binary> <mode-flag> <package>
--target=<target> --dir=<dir> --verbose`, with `--stow` for present and
supress, `--delete` for absent, `--restow` for latest; the dry-run probe
appends ` --no`, and the commit runs exactly the base command. -/
theorem command_construction (env : Env) (stowPath target dir package : String) :
    buildCmd stowPath target dir package "present"
      = stowPath ++ " " ++ "--stow" ++ " " ++ package ++ " --target=" ++ target
          ++ " --dir=" ++ dir ++ " --verbose" ∧
    buildCmd stowPath target dir package "supress"
      = stowPath ++ " " ++ "--stow" ++ " " ++ package ++ " --target=" ++ target
          ++ " --dir=" ++ dir ++ " --verbose" ∧
    buildCmd stowPath target dir package "absent"
      = stowPath ++ " " ++ "--delete" ++ " " ++ package ++ " --target=" ++ target
          ++ " --dir=" ++ dir ++ " --verbose" ∧
    buildCmd stowPath target dir package "latest"
      = stowPath ++ " " ++ "--restow" ++ " " ++ package ++ " --target=" ++ target
          ++ " --dir=" ++ dir ++ " --verbose" ∧
    (∀ state, (stow_has_conflicts env target package
          (buildCmd stowPath target dir package state)).1
        = [Effect.runCmd (buildCmd stowPath target dir package state ++ " --no")]) ∧
    (∀ state, (commitRun env (buildCmd stowPath target dir package state)).1
        = [Effect.runCmd (buildCmd stowPath target dir package state)]) :=
  ⟨rfl, rfl, rfl, rfl, fun _ => rfl, fun _ => rfl⟩

/-- C9: committing twice in succession with no intervening filesystem
change, over an oracle that is idempotent (the second run leaves the world
unchanged and succeeds) and emits empty stderr when it performs no work,
yields changed true at most on the first call and changed false on the
second. -/
theorem commit_idempotent {σ : Type} (run : σ → String → σ × Int × String)
    (s : σ) (cmd : String)
    (hnoop : ∀ st, (run st cmd).1 = st → (run st cmd).2.2 = "")
    (h1 : (run s cmd).2.1 = 0)
    (hidem : (run ((run s cmd).1) cmd).1 = (run s cmd).1)
    (h2 : (run ((run s cmd).1) cmd).2.1 = 0) :
    ∃ b, (commitSt run s cmd).2 = StowRet.ok b ∧
      (commitSt run (commitSt run s cmd).1 cmd).2 = StowRet.ok false := by
  refine ⟨(run s cmd).2.2 != "", ?_, ?_⟩
  · simp [commitSt, h1]
  · have hse := hnoop ((run s cmd).1) hidem
    simp [commitSt, h2, hse]

/-- C9 witness: the stateful oracle `runIdem` starting from an unstowed
world — the first commit reports changed, the second reports no change. -/
theorem commit_idempotent_witness :
    ∃ b, (commitSt runIdem false "/s --stow pkg --target=/t --dir=/d --verbose").2
        = StowRet.ok b ∧
      (commitSt runIdem
          (commitSt runIdem false "/s --stow pkg --target=/t --dir=/d --verbose").1
          "/s --stow pkg --target=/t --dir=/d --verbose").2
        = StowRet.ok false :=
  commit_idempotent runIdem false "/s --stow pkg --target=/t --dir=/d --verbose"
    (fun st h => by
      cases st
      · exact absurd h (by decide)
      · rfl)
    rfl rfl rfl

end StowMod
